import Mathlib

/-!
TinyCException — shallow embedding and verification

A shallow embedding of `src/TinyCException.h`, a setjmp/longjmp based
Try/Catch/Finally macro library for C11, together with theorems checking the
natural-language specification against it.

The C library keeps, per thread, a linked stack of `__exp_frame` records
(fields `flag`, `error_code`, `prev`, `jmp_buf`).  The macros expand to:

* `Try` — push a fresh frame (`flag = 0`, `error_code = 0`, `prev` = old top)
  and `setjmp` its buffer;
* `Catch(e)` — `else if (error_code == e && (flag & 3) < 2) { error_code = 0; …`;
* `CatchCustom(cond)` — `else if ((flag & 3) < 2 && cond) { error_code = 0; …`;
* `CatchAll` — `else if ((flag & 3) < 2) { error_code = 0; …`;
* `Finally` — `if (!(flag & 4)) { flag |= 4; …` (single fire);
* `End` — pop (`top = frame.prev`), and if `error_code != 0`, bump the new
  top's `flag` and call `__exp_throw_internal` again;
* `Throw(e)` — record file/function/line in the thread-local
  `__exception_detail_s`, bump the top frame's `flag`, and call
  `__exp_throw_internal`, which stores the code in the top frame and
  `longjmp`s to it, or — with no frame — runs the uncaught path (optional
  custom handler, else printed report and `abort()`);
* `Return` / `Break` / `Continue` — pop the enclosing frame and perform a
  native `return` / `break` / `continue`, skipping `Finally` and `End`.
  Because `Try` opens `do {` and `End` closes `} while(0)`, a `break` or
  `continue` issued directly in the region's body is captured by that wrapper
  and resumes right after `End;` — neither affects a loop that encloses the
  region (a user loop *inside* the region would capture them first).

The embedding models `longjmp` as an outcome that transfers control to the
innermost active protected region, whose frame is the top of the stack; the
`jmp_buf` itself needs no representation.  The interpreter is fueled (the
handler-chain re-entry after a raise from a handler or finally body is not
structurally recursive); fuel exhaustion returns `none` and all theorems state
results at an explicit, sufficient fuel.
-/

namespace TinyC

/-- Source location captured by `Throw` (`__FILE__`, `__FUNCTION__`, `__LINE__`). -/
structure Loc where
  file : String
  func : String
  line : Int
deriving DecidableEq

/-- Mirrors `__exp_frame`: the `flag` bit-set/counter and the `error_code`.
The `prev` link is represented by the tail of the stack list; the `jmp_buf`
is the region's resumption point, implicit in the interpreter's structure.
`flag` is a C `short`; it only ever grows by `+1` bumps (at most a handful per
frame) and a single guarded `|= 4`, far below any overflow, so `Nat` is exact. -/
structure Frame where
  flag : Nat
  error_code : Int
deriving DecidableEq

/-- Trace events: `record t` is user code in a body writing the tag `t`;
`probe` observes the current stack depth and the top frame's `flag` and
`error_code` (an inspection the C program could perform itself). -/
inductive Ev where
  | record (tag : Nat)
  | probe (depth : Nat) (flag : Nat) (err : Int)
deriving DecidableEq

/-- Per-thread interpreter state: the frame stack (`__exp_stack_top` chain,
head = top), the thread-local `__exception_detail_s` record, and the
observation trace. -/
structure St where
  stack : List Frame
  detail : Option Loc
  trace : List Ev
deriving DecidableEq

mutual
/-- Statements of the embedded fragment: recording and probing (observations),
`Throw`, a full `Try …` region (`tryB body clauses fin`), the three early-exit
macros, a bounded counted loop, and a function body boundary (`call`), which
is what a `Return` returns from. -/
inductive Stmt where
  | record (tag : Nat)
  | probe
  | throwE (loc : Loc) (code : Int)
  | tryB (body : List Stmt) (clauses : List Clause) (fin : Option (List Stmt))
  | ret
  | brk
  | cont
  | loop (n : Nat) (body : List Stmt)
  | call (body : List Stmt)

/-- One arm of the `else if` handler chain: `Catch(e)`, `CatchCustom(cond)`
(the condition is a pure predicate of `ErrorCode`), or `CatchAll`. -/
inductive Clause where
  | catchE (code : Int) (body : List Stmt)
  | catchCustom (pred : Int → Bool) (body : List Stmt)
  | catchAll (body : List Stmt)
end

/-- Control outcome of executing a statement sequence: fell through normally,
`longjmp` in flight to the innermost active region (whose top frame already
holds the raised code), native `return` / `break` / `continue` in flight,
or the process is aborting on the uncaught path with the given code. -/
inductive Outcome where
  | ok
  | jumped
  | retO
  | brkO
  | contO
  | uncaughtO (code : Int)
deriving DecidableEq

/-- `if (__exp_stack_top) ++__exp_stack_top->flag;` — the bump performed by
both `Throw` and `End` before calling `__exp_throw_internal`. -/
@[simp] def bumpTop (st : St) : St :=
  match st.stack with
  | [] => st
  | fr :: rest => { st with stack := { fr with flag := fr.flag + 1 } :: rest }

/-- `__exp_throw_internal`: with an active frame, store the code in the top
frame and `longjmp` to it (outcome `jumped`); with none, take the uncaught
path (outcome `uncaughtO`, interpreted at top level). -/
@[simp] def throwInternal (code : Int) (st : St) : Outcome × St :=
  match st.stack with
  | [] => (Outcome.uncaughtO code, st)
  | fr :: rest => (Outcome.jumped, { st with stack := { fr with error_code := code } :: rest })

/-- The raise sequence shared by `Throw` and `End`: bump the top frame's flag,
then `__exp_throw_internal`. -/
@[simp] def raiseTo (code : Int) (st : St) : Outcome × St :=
  throwInternal code (bumpTop st)

/-- The test of one `else if` arm.  `flagOk` is `(__e_frame.flag & 3) < 2`,
which is constant across the arms of one chain pass. -/
@[simp] def clauseTest (err : Int) (flagOk : Bool) : Clause → Bool
  | Clause.catchE e _ => (err == e) && flagOk
  | Clause.catchCustom p _ => flagOk && p err
  | Clause.catchAll _ => flagOk

/-- The body attached to a handler arm. -/
@[simp] def clauseBody : Clause → List Stmt
  | Clause.catchE _ b => b
  | Clause.catchCustom _ b => b
  | Clause.catchAll b => b

/-- Walk the `else if` chain in source order; first arm whose test holds wins. -/
@[simp] def findClause (err : Int) (flagOk : Bool) : List Clause → Option (List Stmt)
  | [] => none
  | cl :: rest => if clauseTest err flagOk cl then some (clauseBody cl) else findClause err flagOk rest

/-- The top frame's `flag` (the phases of a region read their own frame, which
is the top of the stack while the region is active). -/
@[simp] def topFlag (st : St) : Nat :=
  match st.stack with
  | [] => 0
  | fr :: _ => fr.flag

/-- The top frame's `error_code`. -/
@[simp] def topErr (st : St) : Int :=
  match st.stack with
  | [] => 0
  | fr :: _ => fr.error_code

/-- `__e_frame.error_code = 0;` — mark the error consumed, on a handler match. -/
@[simp] def clearTopErr (st : St) : St :=
  match st.stack with
  | [] => st
  | fr :: rest => { st with stack := { fr with error_code := 0 } :: rest }

/-- `__e_frame.flag |= 4;` — run only under the guard `(flag & 4) == 0`
(bit 2 clear), where `|= 4` equals `+ 4`. -/
@[simp] def setFinFlag (st : St) : St :=
  match st.stack with
  | [] => st
  | fr :: rest => { st with stack := { fr with flag := fr.flag + 4 } :: rest }

/-- `End`: pop (`__exp_stack_top = __e_frame.prev`), then, if the frame's
`error_code` is still non-zero, re-raise it (now targeting the next-outer
frame, or the uncaught path). -/
@[simp] def endPhase (st : St) : Outcome × St :=
  match st.stack with
  | [] => (Outcome.ok, st)
  | fr :: rest =>
    let st' := { st with stack := rest }
    if fr.error_code = 0 then (Outcome.ok, st') else raiseTo fr.error_code st'

/-- The `do { … } while(0)` wrapper that `Try` opens and `End` closes around
the whole region: a native `break` issued inside it (the `Break` macro, when
no user loop intervenes) exits this do-while, and a native `continue` jumps to
its always-false condition — so both leave the region and resume immediately
right after `End;`, skipping the rest of the expansion.  A `return` and the
uncaught abort are not captured by the wrapper. -/
@[simp] def captureRegionExits : Option (Outcome × St) → Option (Outcome × St)
  | some (Outcome.brkO, st) => some (Outcome.ok, st)
  | some (Outcome.contO, st) => some (Outcome.ok, st)
  | some (Outcome.ok, st) => some (Outcome.ok, st)
  | some (Outcome.jumped, st) => some (Outcome.jumped, st)
  | some (Outcome.retO, st) => some (Outcome.retO, st)
  | some (Outcome.uncaughtO c, st) => some (Outcome.uncaughtO c, st)
  | none => none

mutual

/-- Execute one statement. -/
@[simp] def execStmt (fuel : Nat) (s : Stmt) (st : St) : Option (Outcome × St) :=
  if hf : fuel = 0 then none else
  match s with
  | Stmt.record t => some (Outcome.ok, { st with trace := st.trace ++ [Ev.record t] })
  | Stmt.probe =>
    some (Outcome.ok, { st with trace := st.trace ++ [Ev.probe st.stack.length (topFlag st) (topErr st)] })
  | Stmt.throwE loc code => some (raiseTo code { st with detail := some loc })
  | Stmt.tryB body cls fin =>
    captureRegionExits
      (match execList (fuel - 1) body { st with stack := Frame.mk 0 0 :: st.stack } with
       | none => none
       | some (Outcome.ok, st2) => finPhase (fuel - 1) cls fin st2
       | some (Outcome.jumped, st2) => chainPhase (fuel - 1) cls fin st2
       | some (o, st2) => some (o, st2))
  | Stmt.ret => some (Outcome.retO, { st with stack := st.stack.tail })
  | Stmt.brk => some (Outcome.brkO, { st with stack := st.stack.tail })
  | Stmt.cont => some (Outcome.contO, { st with stack := st.stack.tail })
  | Stmt.loop n body => execLoop (fuel - 1) n body st
  | Stmt.call body =>
    match execList (fuel - 1) body st with
    | some (Outcome.retO, st2) => some (Outcome.ok, st2)
    | r => r
termination_by fuel
decreasing_by all_goals omega

/-- Execute a statement sequence; a non-`ok` outcome transfers control out. -/
@[simp] def execList (fuel : Nat) (p : List Stmt) (st : St) : Option (Outcome × St) :=
  if hf : fuel = 0 then none else
  match p with
  | [] => some (Outcome.ok, st)
  | s :: rest =>
    match execStmt (fuel - 1) s st with
    | some (Outcome.ok, st') => execList (fuel - 1) rest st'
    | r => r
termination_by fuel
decreasing_by all_goals omega

/-- A counted loop: `brk` ends it, `cont` moves to the next iteration. -/
@[simp] def execLoop (fuel : Nat) (n : Nat) (body : List Stmt) (st : St) : Option (Outcome × St) :=
  if hf : fuel = 0 then none else
  match n with
  | 0 => some (Outcome.ok, st)
  | n + 1 =>
    match execList (fuel - 1) body st with
    | some (Outcome.ok, st') => execLoop (fuel - 1) n body st'
    | some (Outcome.contO, st') => execLoop (fuel - 1) n body st'
    | some (Outcome.brkO, st') => some (Outcome.ok, st')
    | r => r
termination_by fuel
decreasing_by all_goals omega

/-- The handler chain of a region, entered on resumption after a `longjmp`
into this frame.  Evaluates the `else if` arms (each arm's test includes
`(flag & 3) < 2`, written `flag % 4 < 2`); on a match, clears `error_code`
and runs the arm's body.  A raise from the handler body `longjmp`s back into
this same frame (it is still the top), re-entering this chain. -/
@[simp] def chainPhase (fuel : Nat) (cls : List Clause) (fin : Option (List Stmt)) (st : St) : Option (Outcome × St) :=
  if hf : fuel = 0 then none else
  match findClause (topErr st) (decide (topFlag st % 4 < 2)) cls with
  | none => finPhase (fuel - 1) cls fin st
  | some hbody =>
    match execList (fuel - 1) hbody (clearTopErr st) with
    | none => none
    | some (Outcome.ok, st2) => finPhase (fuel - 1) cls fin st2
    | some (Outcome.jumped, st2) => chainPhase (fuel - 1) cls fin st2
    | some (o, st2) => some (o, st2)
termination_by fuel
decreasing_by all_goals omega

/-- The `Finally` region, when present: `if (!(flag & 4)) { flag |= 4; body }`
(the bit-2 test is written `flag / 4 % 2 = 0`).  A raise from the finally body
`longjmp`s back into this frame's chain.  Afterwards (or when the guard is
absent or already fired), `End` runs. -/
@[simp] def finPhase (fuel : Nat) (cls : List Clause) (fin : Option (List Stmt)) (st : St) : Option (Outcome × St) :=
  if hf : fuel = 0 then none else
  match fin with
  | none => some (endPhase st)
  | some fbody =>
    if topFlag st / 4 % 2 = 0 then
      match execList (fuel - 1) fbody (setFinFlag st) with
      | none => none
      | some (Outcome.ok, st2) => some (endPhase st2)
      | some (Outcome.jumped, st2) => chainPhase (fuel - 1) cls fin st2
      | some (o, st2) => some (o, st2)
    else some (endPhase st)
termination_by fuel
decreasing_by all_goals omega

end

/-- Actions of the uncaught-error path of `__exp_throw_internal`:
invoking the configured `__terminate_handle`, printing the diagnostic report
(`Error Code`, `At ->` file, `Func ->`, `Line ->` from `__exception_detail_s`),
and `abort()` — abnormal process termination with a non-zero status. -/
inductive TermAction where
  | callHandler (code : Int)
  | printReport (code : Int) (detail : Option Loc)
  | abortProc
deriving DecidableEq

/-- The uncaught path: if a custom handler is set it is called first; if it
does not return, nothing else happens on this path; if it returns, or none is
set, the report is printed and the process aborts. -/
@[simp] def uncaughtSteps (handlerSet handlerReturns : Bool) (code : Int) (d : Option Loc) : List TermAction :=
  if handlerSet then
    if handlerReturns then
      [TermAction.callHandler code, TermAction.printReport code d, TermAction.abortProc]
    else [TermAction.callHandler code]
  else [TermAction.printReport code d, TermAction.abortProc]

/-- Final result of a top-level run: normal completion (or a stray native
early exit), abnormal termination on the uncaught path with its observable
actions, or fuel exhaustion of the interpreter. -/
inductive ProgResult where
  | completed (out : Outcome) (st : St)
  | abortedR (actions : List TermAction) (st : St)
  | outOfFuel
deriving DecidableEq

/-- Fresh thread state: empty frame stack, `__exception_detail_s = {0,0,0}`,
empty trace. -/
@[simp] def initSt : St := { stack := [], detail := none, trace := [] }

/-- Run a whole program on a fresh thread whose uncaught-handler configuration
is given by the two booleans (handler installed / handler returns). -/
@[simp] def runProg (fuel : Nat) (handlerSet handlerReturns : Bool) (p : List Stmt) : ProgResult :=
  match execList fuel p initSt with
  | none => ProgResult.outOfFuel
  | some (Outcome.uncaughtO c, st) =>
    ProgResult.abortedR (uncaughtSteps handlerSet handlerReturns c st.detail) st
  | some (o, st) => ProgResult.completed o st

/-! ## Claim theorems -/

/-- **C1.** For every region with a Finally guard, the Finally body (marked
`record 0`) executes exactly once per region entry, on each control path:
(1) normal completion of the body, (2) an error consumed by a handler clause,
(3) an error left pending by all clauses, (4) a rethrow from a handler body,
and (5) a nested-region error propagating through this region.  Each conjunct
computes the full trace, in which `Ev.record 0` occurs exactly once. -/
theorem finally_guard_fires_once (c : Int) (hc : c ≠ 0) (l l2 : Loc) :
    (runProg 40 false false
        [Stmt.tryB [Stmt.record 9] [Clause.catchE c [Stmt.record 8]] (some [Stmt.record 0])]
      = ProgResult.completed Outcome.ok (St.mk [] none [Ev.record 9, Ev.record 0])) ∧
    (runProg 40 false false
        [Stmt.tryB [Stmt.throwE l c] [Clause.catchE c [Stmt.record 8]] (some [Stmt.record 0])]
      = ProgResult.completed Outcome.ok (St.mk [] (some l) [Ev.record 8, Ev.record 0])) ∧
    (runProg 40 false false
        [Stmt.tryB [Stmt.throwE l c] [Clause.catchE (c + 1) [Stmt.record 8]] (some [Stmt.record 0])]
      = ProgResult.abortedR [TermAction.printReport c (some l), TermAction.abortProc]
          (St.mk [] (some l) [Ev.record 0])) ∧
    (runProg 40 false false
        [Stmt.tryB [Stmt.throwE l c] [Clause.catchE c [Stmt.record 8, Stmt.throwE l2 c]]
          (some [Stmt.record 0])]
      = ProgResult.abortedR [TermAction.printReport c (some l2), TermAction.abortProc]
          (St.mk [] (some l2) [Ev.record 8, Ev.record 0])) ∧
    (runProg 40 false false
        [Stmt.tryB [Stmt.tryB [Stmt.throwE l c] [] none] [Clause.catchE c [Stmt.record 8]]
          (some [Stmt.record 0])]
      = ProgResult.completed Outcome.ok (St.mk [] (some l) [Ev.record 8, Ev.record 0])) := by
  refine ⟨?_, ?_, ?_, ?_, ?_⟩ <;> simp [hc]

/-- Witness for `finally_guard_fires_once` at `c = 5`. -/
theorem finally_guard_fires_once_witness :
    (5 : Int) ≠ 0 ∧
    runProg 40 false false
        [Stmt.tryB [Stmt.throwE (Loc.mk "t.c" "main" 10) 5] [Clause.catchE 5 [Stmt.record 8]]
          (some [Stmt.record 0])]
      = ProgResult.completed Outcome.ok
          (St.mk [] (some (Loc.mk "t.c" "main" 10)) [Ev.record 8, Ev.record 0]) :=
  ⟨by decide,
   (finally_guard_fires_once 5 (by decide) (Loc.mk "t.c" "main" 10) (Loc.mk "t.c" "main" 11)).2.1⟩

/-- **C2.** A raise from a handler clause body of a frame (re-throw of the
same code or a new code `d`) is not consumed by any clause of that same frame
— not even by an exact `Catch(d)` or a `CatchAll` listed there — because the
frame's `flag` counter has reached 2; after the frame's Finally guard
(`record 9`) runs, the error propagates to the enclosing region's handler
chain, which consumes it (`record 4`).  The sibling clauses (`record 2`,
`record 3`) never execute. -/
theorem handler_rethrow_skips_own_chain (c d : Int) (hd : d ≠ 0) (l1 l2 : Loc)
    (S : List Frame) (dtl : Option Loc) (tr : List Ev) :
    execStmt 40
        (Stmt.tryB
          [Stmt.tryB [Stmt.throwE l1 c]
            [Clause.catchE c [Stmt.record 1, Stmt.throwE l2 d],
             Clause.catchE d [Stmt.record 2],
             Clause.catchAll [Stmt.record 3]]
            (some [Stmt.record 9])]
          [Clause.catchE d [Stmt.record 4]] none)
        (St.mk S dtl tr)
      = some (Outcome.ok, St.mk S (some l2) (tr ++ [Ev.record 1, Ev.record 9, Ev.record 4])) := by
  simp [hd]

/-- Witness for `handler_rethrow_skips_own_chain` at `c = 5`, `d = 7`. -/
theorem handler_rethrow_skips_own_chain_witness :
    (7 : Int) ≠ 0 ∧
    execStmt 40
        (Stmt.tryB
          [Stmt.tryB [Stmt.throwE (Loc.mk "t.c" "f" 3) 5]
            [Clause.catchE 5 [Stmt.record 1, Stmt.throwE (Loc.mk "t.c" "f" 4) 7],
             Clause.catchE 7 [Stmt.record 2],
             Clause.catchAll [Stmt.record 3]]
            (some [Stmt.record 9])]
          [Clause.catchE 7 [Stmt.record 4]] none)
        (St.mk [] none [])
      = some (Outcome.ok,
          St.mk [] (some (Loc.mk "t.c" "f" 4)) [Ev.record 1, Ev.record 9, Ev.record 4]) :=
  ⟨by decide,
   handler_rethrow_skips_own_chain 5 7 (by decide) (Loc.mk "t.c" "f" 3) (Loc.mk "t.c" "f" 4)
     [] none []⟩

/-- **C3, counterexample.**  The claim says every `raise(0)` is rejected or
flagged and the engine never proceeds as if no error were active.  In fact,
`Throw(0)` inside a region with no matching clause jumps to the handler chain,
no clause matches, and `End` — whose re-raise condition is
`error_code != 0` — treats the pending 0 as "no error": the region exits
normally and execution continues (`record 5` runs, nothing is flagged, the
program completes). -/
theorem raise_zero_silently_dropped :
    runProg 40 false false
        [Stmt.tryB [Stmt.throwE (Loc.mk "m.c" "main" 3) 0, Stmt.record 9]
          [Clause.catchE 7 [Stmt.record 8]] none,
         Stmt.record 5]
      = ProgResult.completed Outcome.ok
          (St.mk [] (some (Loc.mk "m.c" "main" 3)) [Ev.record 5]) := by
  simp

/-- **C3, amended.**  The engine performs no validation of the code:
(i) `raise(0)` with no enclosing region does reach the uncaught path (report
and abort, or the custom handler); (ii) inside a region, `raise(0)` performs
the jump (truncating the body) and, if no clause consumes it, region exit
silently treats the pending 0 as "no error" and execution continues;
(iii) a `CatchAll` (or `Catch(0)`) clause can consume a raised 0 like any
other code. -/
theorem raise_zero_observed_behavior (l : Loc) (hs hr : Bool)
    (S : List Frame) (dtl : Option Loc) (tr : List Ev) :
    (runProg 40 hs hr [Stmt.throwE l 0]
      = ProgResult.abortedR (uncaughtSteps hs hr 0 (some l)) (St.mk [] (some l) [])) ∧
    (execStmt 40
        (Stmt.tryB [Stmt.throwE l 0, Stmt.record 9] [Clause.catchE 7 [Stmt.record 8]] none)
        (St.mk S dtl tr)
      = some (Outcome.ok, St.mk S (some l) tr)) ∧
    (execStmt 40
        (Stmt.tryB [Stmt.throwE l 0] [Clause.catchAll [Stmt.record 2]] none)
        (St.mk S dtl tr)
      = some (Outcome.ok, St.mk S (some l) (tr ++ [Ev.record 2]))) := by
  refine ⟨?_, ?_, ?_⟩ <;> simp

/-- **C4, counterexample.**  The claim says the current frame's own handler
clauses never consume an error raised from its Finally guard.  But when the
region body completes normally (no prior delivery, `flag = 4` after the guard
bit is set), a raise from the Finally body re-enters the chain with
`flag = 5`, `(5 & 3) = 1 < 2`, and the frame's own `Catch(5)` consumes it:
the handler body runs (`record 1`) and the region exits normally with nothing
propagated. -/
theorem finally_raise_consumed_by_own_handler :
    runProg 40 false false
        [Stmt.tryB [] [Clause.catchE 5 [Stmt.record 1]]
          (some [Stmt.record 0, Stmt.throwE (Loc.mk "a.c" "f" 7) 5])]
      = ProgResult.completed Outcome.ok
          (St.mk [] (some (Loc.mk "a.c" "f" 7)) [Ev.record 0, Ev.record 1]) := by
  simp

/-- **C4, amended.**  When an error had already been delivered to the frame
(the body raised, whether or not a handler consumed it), a pending code after
the Finally guard — including a new error `d` raised by the guard itself — is
re-raised after the frame is popped and targets the next-outer frame's chain
(or the uncaught path if none remains); the frame's own clauses, including an
exact `Catch(d)`, do not consume it.  (a) body error unmatched, Finally raises
`d`; (b) body error handled, Finally raises `d`; (c) as (a) with no enclosing
frame: uncaught path. -/
theorem finally_raise_targets_outer (c d : Int) (hd : d ≠ 0) (hcd : c ≠ d) (l1 l2 : Loc)
    (S : List Frame) (dtl : Option Loc) (tr : List Ev) :
    (execStmt 40
        (Stmt.tryB
          [Stmt.tryB [Stmt.throwE l1 c] [Clause.catchE d [Stmt.record 9]]
            (some [Stmt.record 0, Stmt.throwE l2 d])]
          [Clause.catchE d [Stmt.record 1]] none)
        (St.mk S dtl tr)
      = some (Outcome.ok, St.mk S (some l2) (tr ++ [Ev.record 0, Ev.record 1]))) ∧
    (execStmt 40
        (Stmt.tryB
          [Stmt.tryB [Stmt.throwE l1 c]
            [Clause.catchE c [Stmt.record 8], Clause.catchE d [Stmt.record 9]]
            (some [Stmt.record 0, Stmt.throwE l2 d])]
          [Clause.catchE d [Stmt.record 1]] none)
        (St.mk S dtl tr)
      = some (Outcome.ok, St.mk S (some l2) (tr ++ [Ev.record 8, Ev.record 0, Ev.record 1]))) ∧
    (runProg 40 false false
        [Stmt.tryB [Stmt.throwE l1 c] [Clause.catchE d [Stmt.record 9]]
          (some [Stmt.record 0, Stmt.throwE l2 d])]
      = ProgResult.abortedR [TermAction.printReport d (some l2), TermAction.abortProc]
          (St.mk [] (some l2) [Ev.record 0])) := by
  refine ⟨?_, ?_, ?_⟩ <;> simp [hd, hcd]

/-- Witness for `finally_raise_targets_outer` at `c = 5`, `d = 7`. -/
theorem finally_raise_targets_outer_witness :
    ((7 : Int) ≠ 0 ∧ (5 : Int) ≠ 7) ∧
    execStmt 40
        (Stmt.tryB
          [Stmt.tryB [Stmt.throwE (Loc.mk "a.c" "f" 1) 5] [Clause.catchE 7 [Stmt.record 9]]
            (some [Stmt.record 0, Stmt.throwE (Loc.mk "a.c" "f" 2) 7])]
          [Clause.catchE 7 [Stmt.record 1]] none)
        (St.mk [] none [])
      = some (Outcome.ok, St.mk [] (some (Loc.mk "a.c" "f" 2)) [Ev.record 0, Ev.record 1]) :=
  ⟨⟨by decide, by decide⟩,
   (finally_raise_targets_outer 5 7 (by decide) (by decide) (Loc.mk "a.c" "f" 1)
     (Loc.mk "a.c" "f" 2) [] none []).1⟩

/-- **C5, counterexample.**  The claim says `Break`, invoked inside a
protected region's body, performs a native break of the *enclosing loop*.
But `Try` opens `do {` and `End` closes `} while(0)`, and the `Break` macro's
`break;` binds to that wrapper: in a two-iteration loop whose body is
`Try { record 1; Break; record 2 } Finally { record 0 } End; record 3`, the
break merely exits the region — `record 3` still runs and the loop still
performs both iterations, giving the trace `[1, 3, 1, 3]` rather than the
loop terminating after `[1]`.  (`Continue` behaves identically: `continue` in
a `do … while(0)` jumps to the always-false condition and also just exits the
region.) -/
theorem break_does_not_exit_enclosing_loop :
    runProg 40 false false
        [Stmt.loop 2 [Stmt.tryB [Stmt.record 1, Stmt.brk, Stmt.record 2] []
            (some [Stmt.record 0]),
          Stmt.record 3]]
      = ProgResult.completed Outcome.ok
          (St.mk [] none [Ev.record 1, Ev.record 3, Ev.record 1, Ev.record 3]) := by
  simp

/-- **C5, amended.**  Each early-exit primitive, invoked inside a protected
region's body, pops that region's frame (the resulting stack is the `S` from
before the region was entered) and performs its native early exit without
executing the Finally guard `fb` (the result depends neither on `fb` nor on
the clauses `cls`).  `Return` returns from the enclosing function (`call`
boundary; the rest of the function, `record 3`, is skipped).  `Break` and
`Continue`, however, are captured by the region's own `do { … } while(0)`
wrapper: both exit the region and resume immediately after `End;`
(`record 2` is skipped, `record 3` runs), leaving a loop that encloses the
region unaffected — it still runs all of its iterations. -/
theorem early_exit_primitives_pop_and_bypass (cls : List Clause) (fb : List Stmt)
    (S : List Frame) (dtl : Option Loc) (tr : List Ev) :
    (execStmt 40
        (Stmt.call [Stmt.tryB [Stmt.record 1, Stmt.ret, Stmt.record 2] cls (some fb),
                    Stmt.record 3])
        (St.mk S dtl tr)
      = some (Outcome.ok, St.mk S dtl (tr ++ [Ev.record 1]))) ∧
    (execStmt 40
        (Stmt.tryB [Stmt.record 1, Stmt.brk, Stmt.record 2] cls (some fb))
        (St.mk S dtl tr)
      = some (Outcome.ok, St.mk S dtl (tr ++ [Ev.record 1]))) ∧
    (execStmt 40
        (Stmt.tryB [Stmt.record 1, Stmt.cont, Stmt.record 2] cls (some fb))
        (St.mk S dtl tr)
      = some (Outcome.ok, St.mk S dtl (tr ++ [Ev.record 1]))) ∧
    (execStmt 40
        (Stmt.loop 2 [Stmt.tryB [Stmt.record 1, Stmt.brk, Stmt.record 2] cls (some fb),
                      Stmt.record 3])
        (St.mk S dtl tr)
      = some (Outcome.ok,
          St.mk S dtl (tr ++ [Ev.record 1, Ev.record 3, Ev.record 1, Ev.record 3]))) ∧
    (execStmt 40
        (Stmt.loop 2 [Stmt.tryB [Stmt.record 1, Stmt.cont, Stmt.record 2] cls (some fb),
                      Stmt.record 3])
        (St.mk S dtl tr)
      = some (Outcome.ok,
          St.mk S dtl (tr ++ [Ev.record 1, Ev.record 3, Ev.record 1, Ev.record 3]))) := by
  refine ⟨?_, ?_, ?_, ?_, ?_⟩ <;> simp

/-- **C6.** An error raised with no enclosing protected region: if a custom
uncaught-error handler is configured it is invoked with the error code; if it
returns, or none is configured, the diagnostic report — error code plus the
file/function/line captured at the raise site — is printed and the process
terminates abnormally (`abort()`, a non-zero exit status).  In every
configuration the result is an aborting run, never a silent completion. -/
theorem uncaught_error_never_silent (c : Int) (l : Loc) (hr : Bool) :
    (runProg 40 true false [Stmt.throwE l c]
      = ProgResult.abortedR [TermAction.callHandler c] (St.mk [] (some l) [])) ∧
    (runProg 40 true true [Stmt.throwE l c]
      = ProgResult.abortedR
          [TermAction.callHandler c, TermAction.printReport c (some l), TermAction.abortProc]
          (St.mk [] (some l) [])) ∧
    (runProg 40 false hr [Stmt.throwE l c]
      = ProgResult.abortedR [TermAction.printReport c (some l), TermAction.abortProc]
          (St.mk [] (some l) [])) := by
  refine ⟨?_, ?_, ?_⟩ <;> simp

/-- **C7, counterexample.**  The claim says that whenever the handler chain
contains an exact-match clause for the raised code, that clause's body runs.
But the chain has first-match-wins semantics: with `CatchAll` listed before
`Catch(5)`, raising 5 executes the catch-all body (`record 2`) and the
exact-match clause's body (`record 1`) never runs. -/
theorem exact_clause_shadowed_by_earlier_catchall :
    runProg 40 false false
        [Stmt.tryB [Stmt.throwE (Loc.mk "m.c" "main" 4) 5]
          [Clause.catchAll [Stmt.record 2], Clause.catchE 5 [Stmt.record 1]] none]
      = ProgResult.completed Outcome.ok
          (St.mk [] (some (Loc.mk "m.c" "main" 4)) [Ev.record 2]) := by
  simp

/-- **C7, amended.**  For every non-zero code `c` raised inside a region whose
handler chain contains an exact-match clause for `c` *and no earlier clause
matching `c`*, that clause's body executes exactly once and no other clause
body of the frame executes (not even a later `CatchAll` that would also
match); the `probe` at the head of the matched body observes
`error_code = 0` — pendingCode is reset before the body runs — and `flag = 1`
at depth `S.length + 1` (the frame is still installed); the frame exits with
no pending error (`Outcome.ok`, stack restored to `S`) and nothing propagates
outward. -/
theorem first_matching_exact_clause_consumes (c a : Int) (hc : c ≠ 0) (ha : c ≠ a) (l : Loc)
    (S : List Frame) (dtl : Option Loc) (tr : List Ev) :
    execStmt 40
        (Stmt.tryB [Stmt.throwE l c]
          [Clause.catchE a [Stmt.record 3],
           Clause.catchE c [Stmt.probe, Stmt.record 1],
           Clause.catchAll [Stmt.record 2]] none)
        (St.mk S dtl tr)
      = some (Outcome.ok,
          St.mk S (some l) (tr ++ [Ev.probe (S.length + 1) 1 0, Ev.record 1])) := by
  simp [hc, ha]

/-- Witness for `first_matching_exact_clause_consumes` at `c = 5`, `a = 3`. -/
theorem first_matching_exact_clause_consumes_witness :
    ((5 : Int) ≠ 0 ∧ (5 : Int) ≠ 3) ∧
    execStmt 40
        (Stmt.tryB [Stmt.throwE (Loc.mk "m.c" "main" 4) 5]
          [Clause.catchE 3 [Stmt.record 3],
           Clause.catchE 5 [Stmt.probe, Stmt.record 1],
           Clause.catchAll [Stmt.record 2]] none)
        (St.mk [] none [])
      = some (Outcome.ok,
          St.mk [] (some (Loc.mk "m.c" "main" 4)) [Ev.probe 1 1 0, Ev.record 1]) :=
  ⟨⟨by decide, by decide⟩,
   first_matching_exact_clause_consumes 5 3 (by decide) (by decide) (Loc.mk "m.c" "main" 4)
     [] none []⟩

/-- **C8.** An inner region's error `c` matching no inner clause is, after the
inner Finally guard (`record 0`, the "innerF" marker) runs and the inner frame
is popped, delivered to the enclosing region's chain with the same code, where
an exact `Catch(c)` consumes it (`record 1`, the "outerCatch" marker): the
observed sequence is exactly `[innerF, outerCatch]`. -/
theorem inner_unmatched_error_reaches_outer (c b : Int) (hc : c ≠ 0) (hb : c ≠ b) (l : Loc)
    (S : List Frame) (dtl : Option Loc) (tr : List Ev) :
    execStmt 40
        (Stmt.tryB
          [Stmt.tryB [Stmt.throwE l c] [Clause.catchE b [Stmt.record 9]] (some [Stmt.record 0])]
          [Clause.catchE c [Stmt.record 1]] none)
        (St.mk S dtl tr)
      = some (Outcome.ok, St.mk S (some l) (tr ++ [Ev.record 0, Ev.record 1])) := by
  simp [hc, hb]

/-- Witness for `inner_unmatched_error_reaches_outer`: the spec's concrete
scenario 3 — outer `Catch(9)`, inner raises 9 with no matching clause and a
Finally recording "innerF" (`record 0`); the sequence is exactly
`[innerF, outerCatch9]` (`[record 0, record 1]`). -/
theorem inner_unmatched_error_reaches_outer_witness :
    ((9 : Int) ≠ 0 ∧ (9 : Int) ≠ 5) ∧
    execStmt 40
        (Stmt.tryB
          [Stmt.tryB [Stmt.throwE (Loc.mk "n.c" "g" 2) 9] [Clause.catchE 5 [Stmt.record 9]]
            (some [Stmt.record 0])]
          [Clause.catchE 9 [Stmt.record 1]] none)
        (St.mk [] none [])
      = some (Outcome.ok, St.mk [] (some (Loc.mk "n.c" "g" 2)) [Ev.record 0, Ev.record 1]) :=
  ⟨⟨by decide, by decide⟩,
   inner_unmatched_error_reaches_outer 9 5 (by decide) (by decide) (Loc.mk "n.c" "g" 2)
     [] none []⟩

/-- **C9.** Region entry installs a fresh frame — `probe` from inside the body
observes depth `S.length + 1` (one above the previous top), `flag = 0`
(state) and `error_code = 0` (pendingCode) — and region exit restores the
previous top exactly once on every control path: (1) normal completion
(stack back to `S`); (2) handled error (stack back to `S`); (3) unhandled
error with an enclosing frame `fr` (the frame is popped before the re-raise,
which then mutates only the next-outer frame: `fr.flag + 1`, code `c`) or
(3') with no enclosing frame (uncaught path, empty stack); (4) early exit
(stack back to `S`, one pop only). -/
theorem region_stack_push_pop_discipline (c : Int) (hc : c ≠ 0) (l : Loc) (fb : List Stmt)
    (S : List Frame) (fr : Frame) (R : List Frame) (dtl : Option Loc) (tr : List Ev) :
    (execStmt 40 (Stmt.tryB [Stmt.probe] [] none) (St.mk S dtl tr)
      = some (Outcome.ok, St.mk S dtl (tr ++ [Ev.probe (S.length + 1) 0 0]))) ∧
    (execStmt 40 (Stmt.tryB [Stmt.throwE l c] [Clause.catchE c []] none) (St.mk S dtl tr)
      = some (Outcome.ok, St.mk S (some l) tr)) ∧
    (execStmt 40 (Stmt.tryB [Stmt.throwE l c] [] none) (St.mk (fr :: R) dtl tr)
      = some (Outcome.jumped, St.mk (Frame.mk (fr.flag + 1) c :: R) (some l) tr)) ∧
    (execStmt 40 (Stmt.tryB [Stmt.throwE l c] [] none) (St.mk [] dtl tr)
      = some (Outcome.uncaughtO c, St.mk [] (some l) tr)) ∧
    (execStmt 40 (Stmt.tryB [Stmt.ret] [] (some fb)) (St.mk S dtl tr)
      = some (Outcome.retO, St.mk S dtl tr)) := by
  refine ⟨?_, ?_, ?_, ?_, ?_⟩ <;> simp [hc]

/-- Witness for `region_stack_push_pop_discipline` at `c = 5` over a one-frame
outer stack. -/
theorem region_stack_push_pop_discipline_witness :
    (5 : Int) ≠ 0 ∧
    execStmt 40 (Stmt.tryB [Stmt.throwE (Loc.mk "s.c" "h" 6) 5] [] none)
        (St.mk [Frame.mk 3 7] none [])
      = some (Outcome.jumped, St.mk [Frame.mk 4 5] (some (Loc.mk "s.c" "h" 6)) []) :=
  ⟨by decide,
   (region_stack_push_pop_discipline 5 (by decide) (Loc.mk "s.c" "h" 6) [] []
     (Frame.mk 3 7) [] none []).2.2.1⟩

/-- **C10.** The thread-local diagnostic record is overwritten by every
explicit `Throw`, including one that is immediately caught (a), and a later
`Throw` overwrites it again, so an uncaught report names the most recent
explicit raise site (b); the `End` re-raise that propagates a pending error
outward leaves the record unchanged, so an error that crosses two region
exits is still reported at its original `Throw` site `l1`, not at any region
exit (c). -/
theorem detail_records_last_explicit_throw (c d : Int) (hc : c ≠ 0) (l1 l2 : Loc) :
    (runProg 40 false false
        [Stmt.tryB [Stmt.throwE l1 c] [Clause.catchE c [Stmt.record 1]] none]
      = ProgResult.completed Outcome.ok (St.mk [] (some l1) [Ev.record 1])) ∧
    (runProg 40 false false
        [Stmt.tryB [Stmt.throwE l1 c] [Clause.catchE c [Stmt.record 1]] none,
         Stmt.throwE l2 d]
      = ProgResult.abortedR [TermAction.printReport d (some l2), TermAction.abortProc]
          (St.mk [] (some l2) [Ev.record 1])) ∧
    (runProg 40 false false
        [Stmt.tryB [Stmt.tryB [Stmt.throwE l1 c] [] none] [] none]
      = ProgResult.abortedR [TermAction.printReport c (some l1), TermAction.abortProc]
          (St.mk [] (some l1) [])) := by
  refine ⟨?_, ?_, ?_⟩ <;> simp [hc]

/-- Witness for `detail_records_last_explicit_throw` at `c = 5`, `d = 7`. -/
theorem detail_records_last_explicit_throw_witness :
    (5 : Int) ≠ 0 ∧
    runProg 40 false false
        [Stmt.tryB [Stmt.tryB [Stmt.throwE (Loc.mk "d.c" "u" 8) 5] [] none] [] none]
      = ProgResult.abortedR
          [TermAction.printReport 5 (some (Loc.mk "d.c" "u" 8)), TermAction.abortProc]
          (St.mk [] (some (Loc.mk "d.c" "u" 8)) []) :=
  ⟨by decide,
   (detail_records_last_explicit_throw 5 7 (by decide) (Loc.mk "d.c" "u" 8)
     (Loc.mk "d.c" "u" 9)).2.2⟩


end TinyC
